import Mathlib

/-!
# A shallow embedding of `StanfordCPPLib/graphics/gtextarea.cpp`

`GTextArea` is a thin adapter over the toolkit's rich-text-edit control.  The widget is
embedded as a record; every member function of the source becomes a function on that
record.  Functions that can raise (`require::...`, `std::string::substr`) return
`Except ErrorException _`.  C++ `double` values are embedded as exact rationals and C++
`int` values as integers.  `GThread::runOnQtGuiThread(f)` runs `f` to completion before it
returns, so it is embedded as a plain call of `f`.

Collaborators whose code is not part of the translated file (the `require` helpers, the
size and listener bookkeeping of the interactor base class, and the toolkit's text cursor)
are given by small explicit models, each marked as such in its documentation.

The document of the control is kept as its Unicode characters.  The toolkit counts cursor
positions in UTF-16 code units of that text, while `getText` returns a `std::string`, the
UTF-8 bytes of the same text; the two are kept apart.
-/

namespace StanfordCPPLib

/-! ## Errors and argument validation -/

/-- The exceptions the embedded code can raise. -/
inductive ErrorException where
  | illegalArgument (caller : String) (valueName : String)
  | nullPointer (caller : String) (valueName : String)
  | outOfRange
  | logicError
  deriving DecidableEq, Repr

/-- Modelled from the spec: the conversion of a call argument to a `std::string` parameter.
A string literal (`some s`) converts to its text.  The literal `0` (`none`) is a null
pointer, and constructing a `std::string` from a null pointer raises before the called
function runs. -/
def stdString : Option String → Except ErrorException String
  | none => Except.error ErrorException.logicError
  | some s => Except.ok s

namespace require

/-- Modelled from the spec: `require::nonNegative` (declared in `require.h`) is the light
argument validation of the module; it raises exactly when `value` is negative and has no
other effect.  Its three string parameters `caller`, `valueName` and `details` (the calls
of the file pass between one and three of them, the rest default to the empty string) only
label the error. -/
def nonNegative (value : Int) (caller : String) (valueName : String) (_details : String) :
    Except ErrorException Unit :=
  if value < 0 then Except.error (ErrorException.illegalArgument caller valueName)
  else Except.ok ()

/-- Modelled from the spec: `require::nonNegative2D` (declared in `require.h`) raises
exactly when one of the two values is negative, checking `x` first. -/
def nonNegative2D (x : Int) (y : Int) (caller : String) (xValueName : String)
    (yValueName : String) : Except ErrorException Unit :=
  if x < 0 then Except.error (ErrorException.illegalArgument caller xValueName)
  else if y < 0 then Except.error (ErrorException.illegalArgument caller yValueName)
  else Except.ok ()

/-- Modelled from the spec: `require::nonNull` (declared in `require.h`) raises exactly
when the pointer is null; a pointer is embedded as an `Option`. -/
def nonNull {α : Type} (ptr : Option α) (caller : String) (valueName : String) :
    Except ErrorException α :=
  match ptr with
  | none => Except.error (ErrorException.nullPointer caller valueName)
  | some a => Except.ok a

end require

/-! ## The toolkit's text cursor -/

/-- Modelled from the spec: the number of UTF-16 code units of a character; the toolkit
counts cursor positions in these units. -/
def utf16Size (ch : Char) : Nat := if ch.toNat < 65536 then 1 else 2

/-- Modelled from the spec: the last cursor position of a document with the given text,
the number of UTF-16 code units of the text. -/
def lastPosition (text : List Char) : Nat := (text.map utf16Size).sum

/-- Modelled from the spec: `QString::toStdString`, the UTF-8 bytes of a text. -/
def toStdString (text : List Char) : List UInt8 := text.flatMap String.utf8EncodeChar

/-- The toolkit's `QTextCursor::MoveMode`. -/
inductive MoveMode where
  | MoveAnchor
  | KeepAnchor
  deriving DecidableEq, Repr

/-- Modelled from the spec: the toolkit's text cursor is a pair of document positions, the
moving `position` and the `anchor`; the selection is the range between the two. -/
structure QTextCursor where
  position : Nat
  anchor : Nat
  deriving DecidableEq, Repr

namespace QTextCursor

/-- Modelled from the spec: `QTextCursor::selectionStart`, the smaller of position and
anchor. -/
def selectionStart (c : QTextCursor) : Int := (min c.position c.anchor : Nat)

/-- Modelled from the spec: `QTextCursor::selectionEnd`, the larger of position and
anchor. -/
def selectionEnd (c : QTextCursor) : Int := (max c.position c.anchor : Nat)

/-- Modelled from the spec: `QTextCursor::clearSelection` moves the anchor onto the
position. -/
def clearSelection (c : QTextCursor) : QTextCursor := { c with anchor := c.position }

/-- Modelled from the spec: `QTextCursor::setPosition(pos, mode)` on a document whose last
cursor position is `lastPosition`.  A position outside `0 .. lastPosition` is rejected and
the cursor is left as it was; otherwise the position moves there, and the anchor follows
unless the mode is `KeepAnchor`. -/
def setPosition (lastPosition : Nat) (c : QTextCursor) (pos : Int) (mode : MoveMode) :
    QTextCursor :=
  if pos < 0 ∨ (lastPosition : Int) < pos then c
  else
    match mode with
    | MoveMode.MoveAnchor => { position := pos.toNat, anchor := pos.toNat }
    | MoveMode.KeepAnchor => { c with position := pos.toNat }

/-- Modelled from the spec: the cursor position that follows `pos` in a text whose first
character starts at position `start`: the end of the character that `pos` lies in, or
nothing when `pos` is at or past the end of the text. -/
def nextCursorPosition : List Char → Nat → Nat → Option Nat
  | [], _, _ => none
  | ch :: rest, start, pos =>
    if pos < start + utf16Size ch then some (start + utf16Size ch)
    else nextCursorPosition rest (start + utf16Size ch) pos

/-- Modelled from the spec: one step of `QTextCursor::movePosition(Right, mode)`: the
position advances to the next cursor position unless it is at the end of the document, in
which case the step fails. -/
def stepRight (text : List Char) (c : QTextCursor) (mode : MoveMode) : Option QTextCursor :=
  match nextCursorPosition text 0 c.position with
  | none => none
  | some p =>
    match mode with
    | MoveMode.MoveAnchor => some { position := p, anchor := p }
    | MoveMode.KeepAnchor => some { c with position := p }

/-- The loop of `QTextCursor::movePosition`: repeat the step `n` times, stopping at the
first step that fails. -/
def repeatRight (text : List Char) (mode : MoveMode) : Nat → QTextCursor → QTextCursor
  | 0, c => c
  | n + 1, c =>
    match stepRight text c mode with
    | none => c
    | some c1 => repeatRight text mode n c1

/-- Modelled from the spec: `QTextCursor::movePosition(QTextCursor::Right, mode, n)`; a
count that is not positive moves nothing. -/
def movePositionRight (text : List Char) (c : QTextCursor) (mode : MoveMode) (n : Int) :
    QTextCursor :=
  repeatRight text mode n.toNat c

end QTextCursor

/-- Modelled from the spec: `std::string::substr(pos, n)` on the bytes of a string raises
when `pos` is past the end of the string and otherwise returns at most `n` bytes starting
at `pos`. -/
def substr (s : List UInt8) (pos : Nat) (n : Nat) : Except ErrorException (List UInt8) :=
  if s.length < pos then Except.error ErrorException.outOfRange
  else Except.ok ((s.drop pos).take n)

/-! ## The widget -/

/-- Modelled from the spec: `GDimension` (declared outside this file), a width and a
height. -/
structure GDimension where
  width : ℚ
  height : ℚ
  deriving DecidableEq

/-- Modelled from the spec: the two numbers `getRowColumnSize` reads from the toolkit's
`QFontMetrics` of the widget's font: `metrics.width("mmmmmmmmmm")` and
`metrics.lineSpacing()`, both C++ `int`. -/
structure QFontMetrics where
  widthOfTenM : Int
  lineSpacing : Int
  deriving DecidableEq

/-- Modelled from the spec: the toolkit's `Qt::FocusPolicy` values. -/
inductive FocusPolicy where
  | NoFocus
  | TabFocus
  | ClickFocus
  | StrongFocus
  | WheelFocus
  deriving DecidableEq, Repr

/-- Modelled from the spec: a listener (`GEventListener` or `GEventListenerVoid`, declared
with the event system), identified by a handle. -/
structure GEventListener where
  handle : Nat
  deriving DecidableEq, Repr

/-- The state of a `GTextArea`: its own field `_contextMenuEnabled`, the state of the
wrapped `_Internal_QTextEdit` (the Unicode characters of its plain text, the text cursor,
the font metrics, the focus policy) and the
state kept by the interactor base class (identity, size, preferred size, visibility, action
command, listeners by event name). -/
structure GTextArea where
  _contextMenuEnabled : Bool
  id : Nat
  text : List Char
  cursor : QTextCursor
  font : QFontMetrics
  focusPolicy : FocusPolicy
  width : ℚ
  height : ℚ
  preferredSize : Option GDimension
  visible : Bool
  actionCommand : String
  listeners : List (String × GEventListener)
  deriving DecidableEq

/-- Whether a call raised. -/
def raised {α : Type} : Except ErrorException α → Bool
  | Except.error _ => true
  | Except.ok _ => false

namespace GTextArea

/-! ### Collaborators from the interactor base class -/

/-- Modelled from the spec: `GInteractor::getWidth`. -/
def getWidth (ta : GTextArea) : ℚ := ta.width

/-- Modelled from the spec: `GInteractor::getHeight`. -/
def getHeight (ta : GTextArea) : ℚ := ta.height

/-- Modelled from the spec: `GInteractor::setSize` stores the new size. -/
def setSize (ta : GTextArea) (w : ℚ) (h : ℚ) : GTextArea :=
  { ta with width := w, height := h }

/-- Modelled from the spec: `GInteractor::setPreferredSize` stores the preferred size. -/
def setPreferredSize (ta : GTextArea) (w : ℚ) (h : ℚ) : GTextArea :=
  { ta with preferredSize := some { width := w, height := h } }

/-- Modelled from the spec: `GInteractor::setVisible`. -/
def setVisible (ta : GTextArea) (v : Bool) : GTextArea := { ta with visible := v }

/-- Modelled from the spec: `GObservable::getActionCommand`. -/
def getActionCommand (ta : GTextArea) : String := ta.actionCommand

/-- Modelled from the spec: `GObservable::isAcceptingEvent(name)`, whether a listener is
registered under the event name. -/
def isAcceptingEvent (ta : GTextArea) (name : String) : Bool :=
  ta.listeners.any (fun p => p.1 == name)

/-- Modelled from the spec: the listener registered under an event name, if any. -/
def eventListener (ta : GTextArea) (name : String) : Option GEventListener :=
  (ta.listeners.find? (fun p => p.1 == name)).map (fun p => p.2)

/-- Modelled from the spec: `GObservable::removeEventListener(name)` drops the listener
registered under the name. -/
def removeEventListener (ta : GTextArea) (name : String) : GTextArea :=
  { ta with listeners := ta.listeners.filter (fun p => !(p.1 == name)) }

/-- Modelled from the spec: `GObservable::removeEventListeners(names)` removes each name in
turn. -/
def removeEventListeners (ta : GTextArea) (names : List String) : GTextArea :=
  names.foldl removeEventListener ta

/-- Modelled from the spec: `GObservable::setEventListener(name, func)` registers `func`
under the name, replacing a listener registered there before. -/
def setEventListener (ta : GTextArea) (name : String) (func : GEventListener) : GTextArea :=
  { ta with listeners := (name, func) :: ta.listeners.filter (fun p => !(p.1 == name)) }

/-- Modelled from the spec: `GObservable::setEventListeners(names, func)` registers `func`
under each name in turn. -/
def setEventListeners (ta : GTextArea) (names : List String) (func : GEventListener) :
    GTextArea :=
  names.foldl (fun t name => t.setEventListener name func) ta

/-- The C++ cast `(int) x` of a `double`: truncation toward zero. -/
def toInt (x : ℚ) : Int := Int.tdiv x.num x.den

/-! ### Member functions of `GTextArea` -/

/-- `GTextArea::clearSelection`. -/
def clearSelection (ta : GTextArea) : GTextArea :=
  { ta with cursor := ta.cursor.clearSelection }

/-- `GTextArea::getRowColumnSize`: the width of one column is a tenth of the width of ten
letters m, the height of one row is the line spacing plus 2. -/
def getRowColumnSize (ta : GTextArea) : GDimension :=
  { width := (ta.font.widthOfTenM : ℚ) / 10,
    height := ((ta.font.lineSpacing + 2 : Int) : ℚ) }

/-- `GTextArea::getColumns`. -/
def getColumns (ta : GTextArea) : Int :=
  toInt (ta.getHeight / ta.getRowColumnSize.width)

/-- `GTextArea::getCursorPosition`. -/
def getCursorPosition (ta : GTextArea) : Int := ta.cursor.position

/-- `GTextArea::getRows`. -/
def getRows (ta : GTextArea) : Int :=
  toInt (ta.getHeight / ta.getRowColumnSize.height)

/-- `GTextArea::getText`: `toPlainText().toStdString()`, the bytes of the text. -/
def getText (ta : GTextArea) : List UInt8 := toStdString ta.text

/-- `GTextArea::getSelectedText`. -/
def getSelectedText (ta : GTextArea) : Except ErrorException (List UInt8) :=
  let start := ta.cursor.selectionStart
  let stop := ta.cursor.selectionEnd
  if stop > start then
    substr ta.getText start.toNat (stop - start).toNat
  else
    Except.ok []

/-- `GTextArea::getSelectionEnd`. -/
def getSelectionEnd (ta : GTextArea) : Int :=
  let start := ta.cursor.selectionStart
  let stop := ta.cursor.selectionEnd
  if stop > start then stop else -1

/-- `GTextArea::getSelectionLength`. -/
def getSelectionLength (ta : GTextArea) : Int :=
  let start := ta.cursor.selectionStart
  let stop := ta.cursor.selectionEnd
  stop - start

/-- `GTextArea::getSelectionStart`. -/
def getSelectionStart (ta : GTextArea) : Int :=
  let start := ta.cursor.selectionStart
  let stop := ta.cursor.selectionEnd
  if stop > start then start else -1

/-- `GTextArea::isContextMenuEnabled`. -/
def isContextMenuEnabled (ta : GTextArea) : Bool := ta._contextMenuEnabled

/-- `GTextArea::removeKeyListener`. -/
def removeKeyListener (ta : GTextArea) : GTextArea :=
  ta.removeEventListeners ["keypress", "keyrelease", "keytype"]

/-- `GTextArea::removeMouseListener`. -/
def removeMouseListener (ta : GTextArea) : GTextArea :=
  ta.removeEventListeners ["mousepress", "mouserelease"]

/-- `GTextArea::removeTextChangeListener`. -/
def removeTextChangeListener (ta : GTextArea) : GTextArea :=
  ta.removeEventListener "textchange"

/-- `GTextArea::select`.  A call returns its outcome together with the widget state it
leaves behind.  Both calls of `require::nonNegative` pass four arguments: the checked value,
the literal `0`, and two string literals.  The literal `0` stands in the place of the
`caller` string and is converted to a `std::string` before the check runs.  After the
checks the cursor is put at `startIndex` and moved right by `length` characters with the
anchor kept. -/
def select (ta : GTextArea) (startIndex : Int) (length : Int) :
    Except ErrorException Unit × GTextArea :=
  match stdString none with
  | Except.error e => (Except.error e, ta)
  | Except.ok caller =>
    match require.nonNegative startIndex caller "GTextArea::select" "startIndex" with
    | Except.error e => (Except.error e, ta)
    | Except.ok _ =>
      match stdString none with
      | Except.error e => (Except.error e, ta)
      | Except.ok caller =>
        match require.nonNegative length caller "GTextArea::select" "length" with
        | Except.error e => (Except.error e, ta)
        | Except.ok _ =>
          let cursor := ta.cursor
          let cursor := cursor.setPosition (lastPosition ta.text) startIndex
            MoveMode.MoveAnchor
          let cursor := cursor.movePositionRight ta.text MoveMode.KeepAnchor length
          (Except.ok (), { ta with cursor := cursor })

/-- `GTextArea::setColumns`. -/
def setColumns (ta : GTextArea) (columns : Int) : Except ErrorException Unit × GTextArea :=
  match require.nonNegative columns "GTextArea::setColumns" "" "" with
  | Except.error e => (Except.error e, ta)
  | Except.ok _ =>
    let desiredWidth := ta.getRowColumnSize.width * (columns : ℚ)
    let ta := ta.setPreferredSize desiredWidth ta.getHeight
    let ta := ta.setSize desiredWidth ta.getHeight
    (Except.ok (), ta)

/-- `GTextArea::setContextMenuEnabled`. -/
def setContextMenuEnabled (ta : GTextArea) (enabled : Bool) : GTextArea :=
  { ta with _contextMenuEnabled := enabled }

/-- `GTextArea::setCursorPosition`. -/
def setCursorPosition (ta : GTextArea) (index : Int) (keepAnchor : Bool) :
    Except ErrorException Unit × GTextArea :=
  match require.nonNegative index "TextArea::setCursorPosition" "index" "" with
  | Except.error e => (Except.error e, ta)
  | Except.ok _ =>
    let cursor := ta.cursor
    let cursor := cursor.setPosition (lastPosition ta.text) index
      (if keepAnchor then MoveMode.KeepAnchor else MoveMode.MoveAnchor)
    (Except.ok (), { ta with cursor := cursor })

/-- `GTextArea::setRows`. -/
def setRows (ta : GTextArea) (rows : Int) : Except ErrorException Unit × GTextArea :=
  match require.nonNegative rows "GTextArea::setRows" "" "" with
  | Except.error e => (Except.error e, ta)
  | Except.ok _ =>
    let desiredHeight := ta.getRowColumnSize.height * (rows : ℚ)
    let ta := ta.setPreferredSize ta.getWidth desiredHeight
    let ta := ta.setSize ta.getWidth desiredHeight
    (Except.ok (), ta)

/-- `GTextArea::setRowsColumns`. -/
def setRowsColumns (ta : GTextArea) (rows : Int) (columns : Int) :
    Except ErrorException Unit × GTextArea :=
  match require.nonNegative2D rows columns "GTextArea::setRowsColumns" "rows" "columns" with
  | Except.error e => (Except.error e, ta)
  | Except.ok _ =>
    let desiredWidth := ta.getRowColumnSize.width * (columns : ℚ)
    let desiredHeight := ta.getRowColumnSize.height * (rows : ℚ)
    let ta := ta.setPreferredSize desiredWidth desiredHeight
    let ta := ta.setSize desiredWidth desiredHeight
    (Except.ok (), ta)

/-- `GTextArea::setText`; the argument is given by the characters that
`QString::fromStdString` decodes from it.  The toolkit replaces the document and puts the
cursor at its start. -/
def setText (ta : GTextArea) (text : List Char) : GTextArea :=
  { ta with text := text, cursor := { position := 0, anchor := 0 } }

/-- `GTextArea::setKeyListener` (both overloads). -/
def setKeyListener (ta : GTextArea) (func : GEventListener) : GTextArea :=
  let ta := { ta with focusPolicy := FocusPolicy.StrongFocus }
  ta.setEventListeners ["keypress", "keyrelease", "keytype"] func

/-- `GTextArea::setMouseListener` (both overloads). -/
def setMouseListener (ta : GTextArea) (func : GEventListener) : GTextArea :=
  ta.setEventListeners ["mousepress", "mouserelease"] func

/-- `GTextArea::setTextChangeListener` (both overloads). -/
def setTextChangeListener (ta : GTextArea) (func : GEventListener) : GTextArea :=
  ta.setEventListener "textchange" func

/-- The widget right after `new _Internal_QTextEdit(...)` in a constructor whose
initializer list has set `_contextMenuEnabled`: an empty document with the cursor at its
start, no listeners, and the font, focus policy, size and visibility the toolkit gives a
new control (`shell` carries those; its other fields are overwritten). -/
def created (shell : GTextArea) (contextMenuEnabled : Bool) : GTextArea :=
  { shell with
    _contextMenuEnabled := contextMenuEnabled
    text := []
    cursor := { position := 0, anchor := 0 }
    preferredSize := none
    listeners := [] }

/-- `GTextArea::GTextArea(int rows, int columns, QWidget* parent)`; when `setRowsColumns`
raises, so does the constructor. -/
def ofRowsColumns (shell : GTextArea) (rows : Int) (columns : Int) :
    Except ErrorException GTextArea :=
  let ta := created shell true
  match ta.setRowsColumns rows columns with
  | (Except.error e, _) => Except.error e
  | (Except.ok _, ta) => Except.ok (ta.setVisible false)

/-- `GTextArea::GTextArea(const std::string& text, QWidget* parent)`. -/
def ofText (shell : GTextArea) (text : List Char) : GTextArea :=
  let ta := created shell true
  let ta := ta.setText text
  ta.setVisible false

end GTextArea

/-! ## The internal control and its event handlers -/

/-- Modelled from the spec: the event classes of the dispatch system that the file names. -/
inductive EventClass where
  | KEY_EVENT
  | MOUSE_EVENT
  deriving DecidableEq, Repr

/-- Modelled from the spec: the event types of the dispatch system that the file names. -/
inductive EventType where
  | KEY_PRESSED
  | KEY_RELEASED
  | KEY_TYPED
  | MOUSE_PRESSED
  | MOUSE_RELEASED
  deriving DecidableEq, Repr

/-- Modelled from the spec: a toolkit event (`QKeyEvent`, `QMouseEvent`,
`QContextMenuEvent`): its accepted flag
and a payload that the handlers never inspect. -/
structure QEvent where
  accepted : Bool
  payload : Nat
  deriving DecidableEq, Repr

namespace QEvent

/-- Modelled from the spec: `QEvent::accept` sets the accepted flag. -/
def accept (e : QEvent) : QEvent := { e with accepted := true }

/-- Modelled from the spec: `QEvent::ignore` clears the accepted flag. -/
def ignore (e : QEvent) : QEvent := { e with accepted := false }

/-- Modelled from the spec: `QEvent::isAccepted` reads the accepted flag. -/
def isAccepted (e : QEvent) : Bool := e.accepted

end QEvent

/-- Modelled from the spec: a `GEvent` (declared with the event system) as built by
`handleTextChange`; the source is the identity of the widget. -/
structure GEvent where
  eventClass : EventClass
  eventType : EventType
  name : String
  source : Nat
  actionCommand : String
  deriving DecidableEq, Repr

namespace GEvent

/-- Modelled from the spec: the four-argument `GEvent` constructor; the action command
starts empty. -/
def create (eventClass : EventClass) (eventType : EventType) (name : String) (source : Nat) :
    GEvent :=
  { eventClass := eventClass, eventType := eventType, name := name, source := source,
    actionCommand := "" }

/-- Modelled from the spec: `GEvent::setActionCommand` stores the action command. -/
def setActionCommand (e : GEvent) (actionCommand : String) : GEvent :=
  { e with actionCommand := actionCommand }

end GEvent

/-- What a handler of the internal control does to the outside, in order: an event handed
to the dispatch system, or a call of the toolkit's own handler of the base class. -/
inductive Call where
  | fireGEvent (event : QEvent) (type : EventType) (name : String)
  | fireEvent (event : GEvent)
  | superKeyPressEvent (event : QEvent)
  | superKeyReleaseEvent (event : QEvent)
  | superMousePressEvent (event : QEvent)
  | superMouseReleaseEvent (event : QEvent)
  deriving DecidableEq, Repr

/-- Modelled from the spec: the dispatch system as seen by a handler: `fireGEvent(event, type, name)` runs the
listeners, which may leave the toolkit event accepted or ignored.  It is a parameter of the
handlers. -/
abbrev Dispatch := GTextArea → QEvent → EventType → String → QEvent

namespace _Internal_QTextEdit

/-- `_Internal_QTextEdit::contextMenuEvent`. -/
def contextMenuEvent (_gtextarea : GTextArea) (event : QEvent) : QEvent :=
  if _gtextarea.isContextMenuEnabled then event.accept else event.ignore

/-- `_Internal_QTextEdit::handleTextChange`: the widget state left behind and the calls
made. -/
def handleTextChange (_gtextarea : GTextArea) : GTextArea × List Call :=
  let textChangeEvent :=
    GEvent.create EventClass.KEY_EVENT EventType.KEY_TYPED "textchange" _gtextarea.id
  let textChangeEvent := textChangeEvent.setActionCommand _gtextarea.getActionCommand
  (_gtextarea, [Call.fireEvent textChangeEvent])

/-- `_Internal_QTextEdit::keyPressEvent`: the outcome (the event as left behind, or the
error) and the calls made. -/
def keyPressEvent (dispatch : Dispatch) (_gtextarea : GTextArea) (event : Option QEvent) :
    Except ErrorException QEvent × List Call :=
  match require.nonNull event "_Internal_QTextEdit::keyPressEvent" "event" with
  | Except.error e => (Except.error e, [])
  | Except.ok event =>
    let event := event.accept
    let calls := [Call.fireGEvent event EventType.KEY_PRESSED "keypress"]
    let event := dispatch _gtextarea event EventType.KEY_PRESSED "keypress"
    if event.isAccepted then
      (Except.ok event, calls ++ [Call.superKeyPressEvent event])
    else
      (Except.ok event, calls)

/-- `_Internal_QTextEdit::keyReleaseEvent`. -/
def keyReleaseEvent (dispatch : Dispatch) (_gtextarea : GTextArea) (event : Option QEvent) :
    Except ErrorException QEvent × List Call :=
  match require.nonNull event "_Internal_QTextEdit::keyPressEvent" "event" with
  | Except.error e => (Except.error e, [])
  | Except.ok event =>
    let event := event.accept
    let calls := [Call.fireGEvent event EventType.KEY_RELEASED "keyrelease"]
    let event := dispatch _gtextarea event EventType.KEY_RELEASED "keyrelease"
    if event.isAccepted then
      (Except.ok event, calls ++ [Call.superKeyReleaseEvent event])
    else
      (Except.ok event, calls)

/-- `_Internal_QTextEdit::mousePressEvent`. -/
def mousePressEvent (dispatch : Dispatch) (_gtextarea : GTextArea) (event : Option QEvent) :
    Except ErrorException QEvent × List Call :=
  match require.nonNull event "_Internal_QTextEdit::keyPressEvent" "event" with
  | Except.error e => (Except.error e, [])
  | Except.ok event =>
    let event := event.accept
    if !_gtextarea.isAcceptingEvent "mousepress" then (Except.ok event, [])
    else
      let fired :=
        if _gtextarea.isAcceptingEvent "mousepress" then
          (dispatch _gtextarea event EventType.MOUSE_PRESSED "mousepress",
            [Call.fireGEvent event EventType.MOUSE_PRESSED "mousepress"])
        else (event, [])
      if fired.1.isAccepted then
        (Except.ok fired.1, fired.2 ++ [Call.superMousePressEvent fired.1])
      else
        (Except.ok fired.1, fired.2)

/-- `_Internal_QTextEdit::mouseReleaseEvent`. -/
def mouseReleaseEvent (dispatch : Dispatch) (_gtextarea : GTextArea) (event : Option QEvent) :
    Except ErrorException QEvent × List Call :=
  match require.nonNull event "_Internal_QTextEdit::keyPressEvent" "event" with
  | Except.error e => (Except.error e, [])
  | Except.ok event =>
    let event := event.accept
    if !_gtextarea.isAcceptingEvent "mouserelease" then (Except.ok event, [])
    else
      let fired :=
        if _gtextarea.isAcceptingEvent "mouserelease" then
          (dispatch _gtextarea event EventType.MOUSE_RELEASED "mouserelease",
            [Call.fireGEvent event EventType.MOUSE_RELEASED "mouserelease"])
        else (event, [])
      if fired.1.isAccepted then
        (Except.ok fired.1, fired.2 ++ [Call.superMouseReleaseEvent fired.1])
      else
        (Except.ok fired.1, fired.2)

end _Internal_QTextEdit

/-- Whether a call hands an event to the dispatch system. -/
def Call.isFire : Call → Bool
  | Call.fireGEvent _ _ _ => true
  | Call.fireEvent _ => true
  | _ => false

/-- Whether a call is a call of one of the toolkit's own handlers. -/
def Call.isSuper : Call → Bool
  | Call.fireGEvent _ _ _ => false
  | Call.fireEvent _ => false
  | _ => true

/-! ## Concrete widgets used for evaluation -/

/-- A text area holding `hello world`, 100 wide and 64 high, with a font whose ten letters
m are 80 wide and whose line spacing is 14, and no listeners. -/
def sampleArea : GTextArea :=
  { _contextMenuEnabled := true, id := 7, text := "hello world".toList,
    cursor := { position := 0, anchor := 0 },
    font := { widthOfTenM := 80, lineSpacing := 14 },
    focusPolicy := FocusPolicy.NoFocus,
    width := 100, height := 64, preferredSize := none, visible := false,
    actionCommand := "edit", listeners := [] }

/-! ## Auxiliary lemmas -/

theorem toInt_intCast (n : Int) : GTextArea.toInt (n : ℚ) = n := by
  simp [GTextArea.toInt]

/-! ## Claims -/

/-- C1: `select` raises on every call, also when neither argument is negative, because the
literal `0` it passes in the place of the caller string of `require::nonNegative` cannot be
converted to a string; so on the sample widget `select 2 3` and `select 0 0` raise.  Each of
`setCursorPosition`, `setRows`, `setColumns` and `setRowsColumns` raises exactly when one of
its integer arguments is negative.  In all five functions a call that raises leaves the
whole widget state as it was before the call. -/
theorem select_raises_without_negative_argument (ta : GTextArea) (a : Int) (b : Int)
    (keepAnchor : Bool) :
    (raised (ta.select a b).1 = true ∧ (ta.select a b).2 = ta) ∧
    ((sampleArea.select 2 3).1 = Except.error ErrorException.logicError ∧
      (sampleArea.select 0 0).1 = Except.error ErrorException.logicError ∧
      (sampleArea.select 2 3).2 = sampleArea) ∧
    (if a < 0 then
        raised (ta.setCursorPosition a keepAnchor).1 = true ∧
          (ta.setCursorPosition a keepAnchor).2 = ta
      else raised (ta.setCursorPosition a keepAnchor).1 = false) ∧
    (if a < 0 then raised (ta.setRows a).1 = true ∧ (ta.setRows a).2 = ta
      else raised (ta.setRows a).1 = false) ∧
    (if a < 0 then raised (ta.setColumns a).1 = true ∧ (ta.setColumns a).2 = ta
      else raised (ta.setColumns a).1 = false) ∧
    (if a < 0 ∨ b < 0 then
        raised (ta.setRowsColumns a b).1 = true ∧ (ta.setRowsColumns a b).2 = ta
      else raised (ta.setRowsColumns a b).1 = false) := by
  refine ⟨⟨rfl, rfl⟩, ⟨rfl, rfl, rfl⟩, ?_, ?_, ?_, ?_⟩
  · by_cases ha : a < 0 <;>
      simp [GTextArea.setCursorPosition, require.nonNegative, ha, raised]
  · by_cases ha : a < 0 <;> simp [GTextArea.setRows, require.nonNegative, ha, raised]
  · by_cases ha : a < 0 <;> simp [GTextArea.setColumns, require.nonNegative, ha, raised]
  · by_cases ha : a < 0
    · simp [GTextArea.setRowsColumns, require.nonNegative2D, ha, raised]
    · by_cases hb : b < 0 <;>
        simp [GTextArea.setRowsColumns, require.nonNegative2D, ha, hb, raised]

/-- C2: the sample widget holds `hello world` (11 bytes) and has no selection, so start
index 2 and length 3 meet the conditions of the round trip and the substring of `getText`
asked for is `llo`.  Yet `select 2 3` raises and leaves the cursor where it was: afterwards
`getSelectionStart` and `getSelectionEnd` return -1, `getSelectionLength` returns 0 and
`getSelectedText` is empty.  For every widget and all arguments the four getters return
after `select` what they returned before it. -/
theorem select_getters_see_no_selection :
    ((0 : Int) ≤ 2 ∧ (0 : Int) < 3 ∧ (2 : Int) + 3 ≤ (sampleArea.getText.length : Int)) ∧
    substr sampleArea.getText 2 3 = Except.ok [108, 108, 111] ∧
    raised (sampleArea.select 2 3).1 = true ∧
    (sampleArea.select 2 3).2.getText = sampleArea.getText ∧
    (sampleArea.select 2 3).2.getSelectionStart = -1 ∧
    (sampleArea.select 2 3).2.getSelectionEnd = -1 ∧
    (sampleArea.select 2 3).2.getSelectionLength = 0 ∧
    (sampleArea.select 2 3).2.getSelectedText = Except.ok [] ∧
    (∀ (ta : GTextArea) (startIndex : Int) (length : Int),
      (ta.select startIndex length).2.getSelectionStart = ta.getSelectionStart ∧
      (ta.select startIndex length).2.getSelectionEnd = ta.getSelectionEnd ∧
      (ta.select startIndex length).2.getSelectionLength = ta.getSelectionLength ∧
      (ta.select startIndex length).2.getSelectedText = ta.getSelectedText) := by
  refine ⟨⟨by decide, by decide, by decide⟩, ?_, rfl, rfl, by decide, by decide,
    by decide, ?_, ?_⟩
  · have hlen : ¬ sampleArea.getText.length < 2 := by decide
    have hsub : (sampleArea.getText.drop 2).take 3 = [108, 108, 111] := by decide
    simp only [substr, if_neg hlen, hsub]
  · have hsel : ¬ (sampleArea.select 2 3).2.cursor.selectionEnd
        > (sampleArea.select 2 3).2.cursor.selectionStart := by decide
    simp only [GTextArea.getSelectedText, if_neg hsel]
  intro ta startIndex length
  exact ⟨rfl, rfl, rfl, rfl⟩

/-- C3: `getColumns` after `setColumns` is what `getColumns` was before the call, for every
widget and every argument, because it divides the height by the column width.  On the
sample widget (height 64, column width 8) `setColumns 3` succeeds and makes the width 24,
three columns wide, yet `getColumns` returns 8. -/
theorem setColumns_getColumns_reads_height :
    (∀ (ta : GTextArea) (columns : Int),
      (ta.setColumns columns).2.getColumns = ta.getColumns) ∧
    (sampleArea.setColumns 3).1 = Except.ok () ∧
    (sampleArea.setColumns 3).2.getWidth = 24 ∧
    (sampleArea.setColumns 3).2.getRowColumnSize.width = 8 ∧
    GTextArea.toInt ((sampleArea.setColumns 3).2.getWidth
      / (sampleArea.setColumns 3).2.getRowColumnSize.width) = 3 ∧
    (sampleArea.setColumns 3).2.getColumns = 8 := by
  refine ⟨?_, ?_, ?_, ?_, ?_, ?_⟩
  · intro ta columns
    by_cases h : columns < 0 <;>
      simp [GTextArea.setColumns, require.nonNegative, h, GTextArea.getColumns,
        GTextArea.getHeight, GTextArea.setSize, GTextArea.setPreferredSize,
        GTextArea.getRowColumnSize]
  · simp [GTextArea.setColumns, require.nonNegative]
  · simp [GTextArea.setColumns, require.nonNegative, GTextArea.getWidth, GTextArea.setSize,
      GTextArea.getRowColumnSize, sampleArea]
    norm_num
  · simp [GTextArea.setColumns, require.nonNegative, GTextArea.setSize,
      GTextArea.setPreferredSize, GTextArea.getRowColumnSize, sampleArea]
    norm_num
  · have h : (sampleArea.setColumns 3).2.getWidth
        / (sampleArea.setColumns 3).2.getRowColumnSize.width = ((3 : Int) : ℚ) := by
      simp [GTextArea.setColumns, require.nonNegative, GTextArea.getWidth, GTextArea.setSize,
        GTextArea.setPreferredSize, GTextArea.getRowColumnSize, sampleArea]
    rw [h, toInt_intCast]
  · have h : (sampleArea.setColumns 3).2.getHeight
        / (sampleArea.setColumns 3).2.getRowColumnSize.width = ((8 : Int) : ℚ) := by
      simp [GTextArea.setColumns, require.nonNegative, GTextArea.getHeight, GTextArea.setSize,
        GTextArea.setPreferredSize, GTextArea.getRowColumnSize, sampleArea]
      norm_num
    rw [GTextArea.getColumns, h, toInt_intCast]

/-- C4: when the row height (line spacing plus 2) is positive and `rows` is not negative,
`setRows rows` succeeds, `getRows` then returns `rows` and the width is unchanged; and for
every `columns` that is not negative `setRowsColumns rows columns` succeeds and `getRows`
then returns `rows`. -/
theorem setRows_getRows_roundtrip (ta : GTextArea) (rows : Int) (hrows : 0 ≤ rows)
    (hpos : 0 < ta.font.lineSpacing + 2) :
    ta.getRowColumnSize.height = ((ta.font.lineSpacing + 2 : Int) : ℚ) ∧
    (ta.setRows rows).1 = Except.ok () ∧
    (ta.setRows rows).2.getRows = rows ∧
    (ta.setRows rows).2.getWidth = ta.getWidth ∧
    ∀ columns : Int, 0 ≤ columns →
      (ta.setRowsColumns rows columns).1 = Except.ok () ∧
      (ta.setRowsColumns rows columns).2.getRows = rows := by
  have hr : ¬ rows < 0 := not_lt.mpr hrows
  have hne : ((ta.font.lineSpacing + 2 : Int) : ℚ) ≠ 0 := by
    have : (0 : ℚ) < ((ta.font.lineSpacing + 2 : Int) : ℚ) := by exact_mod_cast hpos
    exact ne_of_gt this
  have hdiv : ((ta.font.lineSpacing + 2 : Int) : ℚ) * (rows : ℚ)
      / ((ta.font.lineSpacing + 2 : Int) : ℚ) = (rows : ℚ) := mul_div_cancel_left₀ _ hne
  refine ⟨rfl, ?_, ?_, ?_, ?_⟩
  · simp only [GTextArea.setRows, require.nonNegative, if_neg hr]
  · simp only [GTextArea.setRows, require.nonNegative, if_neg hr, GTextArea.getRows,
      GTextArea.getHeight, GTextArea.setSize, GTextArea.setPreferredSize,
      GTextArea.getRowColumnSize, hdiv, toInt_intCast]
  · simp only [GTextArea.setRows, require.nonNegative, if_neg hr, GTextArea.getWidth,
      GTextArea.setSize, GTextArea.setPreferredSize]
  · intro columns hcolumns
    have hc : ¬ columns < 0 := not_lt.mpr hcolumns
    refine ⟨?_, ?_⟩
    · simp only [GTextArea.setRowsColumns, require.nonNegative2D, if_neg hr, if_neg hc]
    · simp only [GTextArea.setRowsColumns, require.nonNegative2D, if_neg hr, if_neg hc,
        GTextArea.getRows, GTextArea.getHeight, GTextArea.setSize, GTextArea.setPreferredSize,
        GTextArea.getRowColumnSize, hdiv, toInt_intCast]

/-- Witness for C4: three rows on the sample widget, whose row height is 16. -/
theorem setRows_getRows_roundtrip_witness :
    (0 : Int) ≤ 3 ∧ 0 < sampleArea.font.lineSpacing + 2 ∧
    (sampleArea.setRows 3).1 = Except.ok () ∧
    (sampleArea.setRows 3).2.getRows = 3 ∧
    (sampleArea.setRows 3).2.getWidth = sampleArea.getWidth ∧
    (sampleArea.setRowsColumns 3 5).2.getRows = 3 :=
  have h := setRows_getRows_roundtrip sampleArea 3 (by decide) (by decide)
  ⟨by decide, by decide, h.2.1, h.2.2.1, h.2.2.2.1, (h.2.2.2.2 5 (by decide)).2⟩

/-- C5: for every dispatch, widget and mouse event, `mousePressEvent` and
`mouseReleaseEvent` hand one event to the dispatch system when the widget accepts the event
name and then call the toolkit's own handler if the event is still accepted; when the
widget does not accept the name they leave the event accepted and return without calling
anything.  So on the sample widget, which has no listener, neither the dispatch system nor
the toolkit's own handler is reached although the event is accepted. -/
theorem mouse_default_handling_skipped (dispatch : Dispatch) (event : QEvent) :
    (∀ ta : GTextArea,
      _Internal_QTextEdit.mousePressEvent dispatch ta (some event)
        = if ta.isAcceptingEvent "mousepress" then
            (Except.ok (dispatch ta event.accept EventType.MOUSE_PRESSED "mousepress"),
              Call.fireGEvent event.accept EventType.MOUSE_PRESSED "mousepress" ::
                (if (dispatch ta event.accept EventType.MOUSE_PRESSED
                    "mousepress").isAccepted then
                  [Call.superMousePressEvent
                    (dispatch ta event.accept EventType.MOUSE_PRESSED "mousepress")]
                else []))
          else (Except.ok event.accept, [])) ∧
    (∀ ta : GTextArea,
      _Internal_QTextEdit.mouseReleaseEvent dispatch ta (some event)
        = if ta.isAcceptingEvent "mouserelease" then
            (Except.ok (dispatch ta event.accept EventType.MOUSE_RELEASED "mouserelease"),
              Call.fireGEvent event.accept EventType.MOUSE_RELEASED "mouserelease" ::
                (if (dispatch ta event.accept EventType.MOUSE_RELEASED
                    "mouserelease").isAccepted then
                  [Call.superMouseReleaseEvent
                    (dispatch ta event.accept EventType.MOUSE_RELEASED "mouserelease")]
                else []))
          else (Except.ok event.accept, [])) ∧
    sampleArea.isAcceptingEvent "mousepress" = false ∧
    sampleArea.isAcceptingEvent "mouserelease" = false ∧
    _Internal_QTextEdit.mousePressEvent dispatch sampleArea (some event)
      = (Except.ok event.accept, []) ∧
    _Internal_QTextEdit.mouseReleaseEvent dispatch sampleArea (some event)
      = (Except.ok event.accept, []) ∧
    event.accept.isAccepted = true := by
  refine ⟨?_, ?_, rfl, rfl, ?_, ?_, rfl⟩
  · intro ta
    cases h : ta.isAcceptingEvent "mousepress"
    · simp [_Internal_QTextEdit.mousePressEvent, require.nonNull, h]
    · cases h2 : (dispatch ta event.accept EventType.MOUSE_PRESSED "mousepress").isAccepted <;>
        simp [_Internal_QTextEdit.mousePressEvent, require.nonNull, h, h2]
  · intro ta
    cases h : ta.isAcceptingEvent "mouserelease"
    · simp [_Internal_QTextEdit.mouseReleaseEvent, require.nonNull, h]
    · cases h2 : (dispatch ta event.accept EventType.MOUSE_RELEASED
          "mouserelease").isAccepted <;>
        simp [_Internal_QTextEdit.mouseReleaseEvent, require.nonNull, h, h2]
  · simp [_Internal_QTextEdit.mousePressEvent, require.nonNull, GTextArea.isAcceptingEvent,
      sampleArea]
  · simp [_Internal_QTextEdit.mouseReleaseEvent, require.nonNull, GTextArea.isAcceptingEvent,
      sampleArea]

/-- C6: for every dispatch and widget, `keyPressEvent` and `keyReleaseEvent` raise on a null
event and call nothing; on an event they first mark it accepted, hand exactly one
`keypress` (`keyrelease`) event of type `KEY_PRESSED` (`KEY_RELEASED`) to the dispatch
system, and afterwards call the toolkit's own handler exactly when the event is still
accepted after dispatch. -/
theorem key_events_forwarded_then_default (dispatch : Dispatch) (ta : GTextArea)
    (event : QEvent) :
    (raised (_Internal_QTextEdit.keyPressEvent dispatch ta none).1 = true ∧
      (_Internal_QTextEdit.keyPressEvent dispatch ta none).2 = []) ∧
    (raised (_Internal_QTextEdit.keyReleaseEvent dispatch ta none).1 = true ∧
      (_Internal_QTextEdit.keyReleaseEvent dispatch ta none).2 = []) ∧
    event.accept.isAccepted = true ∧
    ((_Internal_QTextEdit.keyPressEvent dispatch ta (some event)).1
        = Except.ok (dispatch ta event.accept EventType.KEY_PRESSED "keypress") ∧
      (_Internal_QTextEdit.keyPressEvent dispatch ta (some event)).2
        = Call.fireGEvent event.accept EventType.KEY_PRESSED "keypress" ::
          (if (dispatch ta event.accept EventType.KEY_PRESSED "keypress").isAccepted then
            [Call.superKeyPressEvent
              (dispatch ta event.accept EventType.KEY_PRESSED "keypress")]
          else []) ∧
      ((_Internal_QTextEdit.keyPressEvent dispatch ta (some event)).2.filter Call.isFire).length
        = 1 ∧
      (((_Internal_QTextEdit.keyPressEvent dispatch ta (some event)).2.any Call.isSuper)
        = (dispatch ta event.accept EventType.KEY_PRESSED "keypress").isAccepted)) ∧
    ((_Internal_QTextEdit.keyReleaseEvent dispatch ta (some event)).1
        = Except.ok (dispatch ta event.accept EventType.KEY_RELEASED "keyrelease") ∧
      (_Internal_QTextEdit.keyReleaseEvent dispatch ta (some event)).2
        = Call.fireGEvent event.accept EventType.KEY_RELEASED "keyrelease" ::
          (if (dispatch ta event.accept EventType.KEY_RELEASED "keyrelease").isAccepted then
            [Call.superKeyReleaseEvent
              (dispatch ta event.accept EventType.KEY_RELEASED "keyrelease")]
          else []) ∧
      ((_Internal_QTextEdit.keyReleaseEvent dispatch ta (some event)).2.filter
        Call.isFire).length = 1 ∧
      (((_Internal_QTextEdit.keyReleaseEvent dispatch ta (some event)).2.any Call.isSuper)
        = (dispatch ta event.accept EventType.KEY_RELEASED "keyrelease").isAccepted)) := by
  refine ⟨⟨rfl, rfl⟩, ⟨rfl, rfl⟩, rfl, ?_, ?_⟩
  · cases h : (dispatch ta event.accept EventType.KEY_PRESSED "keypress").isAccepted <;>
      simp [_Internal_QTextEdit.keyPressEvent, require.nonNull, h, Call.isFire, Call.isSuper]
  · cases h : (dispatch ta event.accept EventType.KEY_RELEASED "keyrelease").isAccepted <;>
      simp [_Internal_QTextEdit.keyReleaseEvent, require.nonNull, h, Call.isFire,
        Call.isSuper]

/-- C7: `handleTextChange` hands exactly one event to the dispatch system; its name is
`textchange`, its class `KEY_EVENT`, its type `KEY_TYPED`, its source the owning text area
and its action command the text area's action command; the text area is left as it was. -/
theorem handleTextChange_fires_one_event (ta : GTextArea) :
    (_Internal_QTextEdit.handleTextChange ta).1 = ta ∧
    ∃ e : GEvent,
      (_Internal_QTextEdit.handleTextChange ta).2 = [Call.fireEvent e] ∧
      e.name = "textchange" ∧
      e.eventClass = EventClass.KEY_EVENT ∧
      e.eventType = EventType.KEY_TYPED ∧
      e.source = ta.id ∧
      e.actionCommand = ta.getActionCommand :=
  ⟨rfl, _, rfl, rfl, rfl, rfl, rfl, rfl⟩

/-- C8: in every cursor state, with `s` the cursor's selection start and `e` its selection
end: if `e > s` then `getSelectionStart` is `s`, `getSelectionEnd` is `e` and
`getSelectionLength` is their positive difference; otherwise both return -1 and
`getSelectedText` is empty.  `getSelectionStart` is -1 exactly when `getSelectionEnd` is,
and after `clearSelection` both are -1 and `getSelectionLength` is 0. -/
theorem selection_getters_agree (ta : GTextArea) :
    (if ta.cursor.selectionEnd > ta.cursor.selectionStart then
        ta.getSelectionStart = ta.cursor.selectionStart ∧
        ta.getSelectionEnd = ta.cursor.selectionEnd ∧
        ta.getSelectionLength = ta.getSelectionEnd - ta.getSelectionStart ∧
        0 < ta.getSelectionLength
      else
        ta.getSelectionStart = -1 ∧ ta.getSelectionEnd = -1 ∧
        ta.getSelectedText = Except.ok []) ∧
    (ta.getSelectionStart = -1 ↔ ta.getSelectionEnd = -1) ∧
    ta.clearSelection.getSelectionStart = -1 ∧
    ta.clearSelection.getSelectionEnd = -1 ∧
    ta.clearSelection.getSelectionLength = 0 := by
  have hs : (0 : Int) ≤ ta.cursor.selectionStart := by
    simp only [QTextCursor.selectionStart]; omega
  have he : (0 : Int) ≤ ta.cursor.selectionEnd := by
    simp only [QTextCursor.selectionEnd]; omega
  refine ⟨?_, ?_, ?_, ?_, ?_⟩
  · by_cases h : ta.cursor.selectionEnd > ta.cursor.selectionStart
    · simp only [h, if_true, GTextArea.getSelectionStart, GTextArea.getSelectionEnd,
        GTextArea.getSelectionLength, true_and]
      omega
    · simp only [h, if_false, GTextArea.getSelectionStart, GTextArea.getSelectionEnd,
        GTextArea.getSelectedText, and_self]
  · by_cases h : ta.cursor.selectionEnd > ta.cursor.selectionStart
    · simp only [GTextArea.getSelectionStart, GTextArea.getSelectionEnd, h, if_true]
      constructor <;> intro h1 <;> omega
    · simp only [GTextArea.getSelectionStart, GTextArea.getSelectionEnd, h, if_false]
  · simp [GTextArea.clearSelection, QTextCursor.clearSelection, GTextArea.getSelectionStart,
      QTextCursor.selectionStart, QTextCursor.selectionEnd]
  · simp [GTextArea.clearSelection, QTextCursor.clearSelection, GTextArea.getSelectionEnd,
      QTextCursor.selectionStart, QTextCursor.selectionEnd]
  · simp [GTextArea.clearSelection, QTextCursor.clearSelection, GTextArea.getSelectionLength,
      QTextCursor.selectionStart, QTextCursor.selectionEnd]

theorem find_filter_other (l : List (String × GEventListener)) (name : String) (m : String)
    (h : ¬ m = name) :
    (l.filter (fun p => !(p.1 == name))).find? (fun p => p.1 == m)
      = l.find? (fun p => p.1 == m) := by
  induction l with
  | nil => rfl
  | cons p ps ih =>
    rw [List.filter_cons, List.find?_cons]
    cases hn : (p.1 == name)
    · simp only [Bool.not_false, if_true, List.find?_cons, ih]
    · have hpn : p.1 = name := by simpa using hn
      have hpm : (p.1 == m) = false := by
        simp only [beq_eq_false_iff_ne, ne_eq, hpn]
        exact fun h2 => h h2.symm
      simp only [Bool.not_true, Bool.false_eq_true, if_false, hpm, ih]

theorem find_filter_same (l : List (String × GEventListener)) (name : String) :
    (l.filter (fun p => !(p.1 == name))).find? (fun p => p.1 == name) = none := by
  induction l with
  | nil => rfl
  | cons p ps ih =>
    rw [List.filter_cons]
    cases hn : (p.1 == name)
    · simp only [Bool.not_false, if_true, List.find?_cons, hn, ih]
    · simp only [Bool.not_true, Bool.false_eq_true, if_false, ih]

theorem eventListener_setEventListener (ta : GTextArea) (name : String)
    (func : GEventListener) (m : String) :
    (ta.setEventListener name func).eventListener m
      = if m = name then some func else ta.eventListener m := by
  by_cases h : m = name
  · subst h
    simp [GTextArea.setEventListener, GTextArea.eventListener, List.find?_cons]
  · have h1 : (name == m) = false := by
      simp only [beq_eq_false_iff_ne, ne_eq]
      exact fun h2 => h h2.symm
    simp only [GTextArea.setEventListener, GTextArea.eventListener, List.find?_cons, h1,
      if_neg h, find_filter_other _ _ _ h]

theorem eventListener_removeEventListener (ta : GTextArea) (name : String) (m : String) :
    (ta.removeEventListener name).eventListener m
      = if m = name then none else ta.eventListener m := by
  by_cases h : m = name
  · subst h
    simp only [GTextArea.removeEventListener, GTextArea.eventListener, find_filter_same,
      Option.map_none', if_true]
  · simp only [GTextArea.removeEventListener, GTextArea.eventListener,
      find_filter_other _ _ _ h, if_neg h]

theorem isAcceptingEvent_eq_isSome (ta : GTextArea) (m : String) :
    ta.isAcceptingEvent m = (ta.eventListener m).isSome := by
  simp only [GTextArea.isAcceptingEvent, GTextArea.eventListener]
  induction ta.listeners with
  | nil => rfl
  | cons p ps ih =>
    rw [List.any_cons, List.find?_cons]
    cases hm : (p.1 == m)
    · simpa using ih
    · simp

theorem eventListener_setKeyListener (ta : GTextArea) (func : GEventListener) (m : String) :
    (ta.setKeyListener func).eventListener m
      = if m ∈ ["keypress", "keyrelease", "keytype"] then some func
        else ta.eventListener m := by
  simp only [GTextArea.setKeyListener, GTextArea.setEventListeners, List.foldl_cons,
    List.foldl_nil, eventListener_setEventListener, List.mem_cons, List.mem_singleton,
    List.not_mem_nil, or_false]
  by_cases h1 : m = "keypress" <;> by_cases h2 : m = "keyrelease" <;>
    by_cases h3 : m = "keytype" <;> simp [h1, h2, h3, GTextArea.eventListener]

theorem eventListener_removeKeyListener (ta : GTextArea) (m : String) :
    ta.removeKeyListener.eventListener m
      = if m ∈ ["keypress", "keyrelease", "keytype"] then none else ta.eventListener m := by
  simp only [GTextArea.removeKeyListener, GTextArea.removeEventListeners, List.foldl_cons,
    List.foldl_nil, eventListener_removeEventListener, List.mem_cons, List.mem_singleton,
    List.not_mem_nil, or_false]
  by_cases h1 : m = "keypress" <;> by_cases h2 : m = "keyrelease" <;>
    by_cases h3 : m = "keytype" <;> simp [h1, h2, h3]

theorem eventListener_setMouseListener (ta : GTextArea) (func : GEventListener)
    (m : String) :
    (ta.setMouseListener func).eventListener m
      = if m ∈ ["mousepress", "mouserelease"] then some func else ta.eventListener m := by
  simp only [GTextArea.setMouseListener, GTextArea.setEventListeners, List.foldl_cons,
    List.foldl_nil, eventListener_setEventListener, List.mem_cons, List.mem_singleton,
    List.not_mem_nil, or_false]
  by_cases h1 : m = "mousepress" <;> by_cases h2 : m = "mouserelease" <;> simp [h1, h2]

theorem eventListener_removeMouseListener (ta : GTextArea) (m : String) :
    ta.removeMouseListener.eventListener m
      = if m ∈ ["mousepress", "mouserelease"] then none else ta.eventListener m := by
  simp only [GTextArea.removeMouseListener, GTextArea.removeEventListeners, List.foldl_cons,
    List.foldl_nil, eventListener_removeEventListener, List.mem_cons, List.mem_singleton,
    List.not_mem_nil, or_false]
  by_cases h1 : m = "mousepress" <;> by_cases h2 : m = "mouserelease" <;> simp [h1, h2]

/-- C9: for every widget, listener and event name: `setKeyListener` registers the listener
under exactly `keypress`, `keyrelease` and `keytype` and `removeKeyListener` removes exactly
those names; `setMouseListener` and `removeMouseListener` do so for `mousepress` and
`mouserelease`; `setTextChangeListener` and `removeTextChangeListener` for `textchange`.
After a set followed by the matching remove the widget accepts none of the names of the
group, and every other name keeps the listener it had. -/
theorem listener_removal_undoes_registration (ta : GTextArea) (func : GEventListener)
    (m : String) :
    ((ta.setKeyListener func).eventListener m
        = (if m ∈ ["keypress", "keyrelease", "keytype"] then some func
          else ta.eventListener m) ∧
      ta.removeKeyListener.eventListener m
        = (if m ∈ ["keypress", "keyrelease", "keytype"] then none
          else ta.eventListener m)) ∧
    ((ta.setMouseListener func).eventListener m
        = (if m ∈ ["mousepress", "mouserelease"] then some func else ta.eventListener m) ∧
      ta.removeMouseListener.eventListener m
        = (if m ∈ ["mousepress", "mouserelease"] then none else ta.eventListener m)) ∧
    ((ta.setTextChangeListener func).eventListener m
        = (if m = "textchange" then some func else ta.eventListener m) ∧
      ta.removeTextChangeListener.eventListener m
        = (if m = "textchange" then none else ta.eventListener m)) ∧
    (if m ∈ ["keypress", "keyrelease", "keytype"] then
        (ta.setKeyListener func).isAcceptingEvent m = true ∧
        (ta.setKeyListener func).removeKeyListener.isAcceptingEvent m = false
      else
        (ta.setKeyListener func).removeKeyListener.eventListener m = ta.eventListener m ∧
        (ta.setKeyListener func).removeKeyListener.isAcceptingEvent m
          = ta.isAcceptingEvent m) ∧
    (if m ∈ ["mousepress", "mouserelease"] then
        (ta.setMouseListener func).isAcceptingEvent m = true ∧
        (ta.setMouseListener func).removeMouseListener.isAcceptingEvent m = false
      else
        (ta.setMouseListener func).removeMouseListener.eventListener m = ta.eventListener m ∧
        (ta.setMouseListener func).removeMouseListener.isAcceptingEvent m
          = ta.isAcceptingEvent m) ∧
    (if m = "textchange" then
        (ta.setTextChangeListener func).isAcceptingEvent m = true ∧
        (ta.setTextChangeListener func).removeTextChangeListener.isAcceptingEvent m = false
      else
        (ta.setTextChangeListener func).removeTextChangeListener.eventListener m
          = ta.eventListener m ∧
        (ta.setTextChangeListener func).removeTextChangeListener.isAcceptingEvent m
          = ta.isAcceptingEvent m) := by
  refine ⟨⟨eventListener_setKeyListener ta func m, eventListener_removeKeyListener ta m⟩,
    ⟨eventListener_setMouseListener ta func m, eventListener_removeMouseListener ta m⟩,
    ⟨eventListener_setEventListener ta _ func m, eventListener_removeEventListener ta _ m⟩,
    ?_, ?_, ?_⟩
  · by_cases h : m ∈ ["keypress", "keyrelease", "keytype"]
    · simp only [if_pos h, isAcceptingEvent_eq_isSome, eventListener_removeKeyListener,
        eventListener_setKeyListener, Option.isSome_some, Option.isSome_none, and_self]
    · simp only [if_neg h, isAcceptingEvent_eq_isSome, eventListener_removeKeyListener,
        eventListener_setKeyListener, and_self]
  · by_cases h : m ∈ ["mousepress", "mouserelease"]
    · simp only [if_pos h, isAcceptingEvent_eq_isSome, eventListener_removeMouseListener,
        eventListener_setMouseListener, Option.isSome_some, Option.isSome_none, and_self]
    · simp only [if_neg h, isAcceptingEvent_eq_isSome, eventListener_removeMouseListener,
        eventListener_setMouseListener, and_self]
  · by_cases h : m = "textchange"
    · simp only [if_pos h, isAcceptingEvent_eq_isSome, GTextArea.removeTextChangeListener,
        GTextArea.setTextChangeListener, eventListener_removeEventListener,
        eventListener_setEventListener, Option.isSome_some, Option.isSome_none, and_self]
    · simp only [if_neg h, isAcceptingEvent_eq_isSome, GTextArea.removeTextChangeListener,
        GTextArea.setTextChangeListener, eventListener_removeEventListener,
        eventListener_setEventListener, and_self]

/-- C10: a text area made by either constructor has `isContextMenuEnabled` true (the
rows-and-columns constructor fails only on a negative argument); `setContextMenuEnabled b`
makes `isContextMenuEnabled` return `b` and changes nothing else; and `contextMenuEvent`
leaves the event accepted exactly when `isContextMenuEnabled` is true. -/
theorem contextMenu_flag_decides (shell : GTextArea) (rows : Int) (columns : Int)
    (text : List Char) (ta : GTextArea) (b : Bool) (event : QEvent) :
    (match GTextArea.ofRowsColumns shell rows columns with
      | Except.ok t => t.isContextMenuEnabled = true
      | Except.error _ => rows < 0 ∨ columns < 0) ∧
    (GTextArea.ofText shell text).isContextMenuEnabled = true ∧
    (ta.setContextMenuEnabled b).isContextMenuEnabled = b ∧
    ((ta.setContextMenuEnabled b).id = ta.id ∧
      (ta.setContextMenuEnabled b).text = ta.text ∧
      (ta.setContextMenuEnabled b).cursor = ta.cursor ∧
      (ta.setContextMenuEnabled b).font = ta.font ∧
      (ta.setContextMenuEnabled b).focusPolicy = ta.focusPolicy ∧
      (ta.setContextMenuEnabled b).width = ta.width ∧
      (ta.setContextMenuEnabled b).height = ta.height ∧
      (ta.setContextMenuEnabled b).preferredSize = ta.preferredSize ∧
      (ta.setContextMenuEnabled b).visible = ta.visible ∧
      (ta.setContextMenuEnabled b).actionCommand = ta.actionCommand ∧
      (ta.setContextMenuEnabled b).listeners = ta.listeners) ∧
    _Internal_QTextEdit.contextMenuEvent ta event
      = (if ta.isContextMenuEnabled then event.accept else event.ignore) ∧
    (_Internal_QTextEdit.contextMenuEvent ta event).isAccepted = ta.isContextMenuEnabled := by
  refine ⟨?_, rfl, rfl, ⟨rfl, rfl, rfl, rfl, rfl, rfl, rfl, rfl, rfl, rfl, rfl⟩, rfl, ?_⟩
  · by_cases hr : rows < 0
    · simp [GTextArea.ofRowsColumns, GTextArea.setRowsColumns, require.nonNegative2D, hr]
    · by_cases hc : columns < 0
      · simp [GTextArea.ofRowsColumns, GTextArea.setRowsColumns, require.nonNegative2D, hr, hc]
      · simp [GTextArea.ofRowsColumns, GTextArea.setRowsColumns, require.nonNegative2D, hr, hc,
          GTextArea.isContextMenuEnabled, GTextArea.setVisible, GTextArea.setSize,
          GTextArea.setPreferredSize, GTextArea.created]
  · cases h : ta.isContextMenuEnabled <;>
      simp [_Internal_QTextEdit.contextMenuEvent, h, QEvent.isAccepted, QEvent.accept,
        QEvent.ignore]

end StanfordCPPLib
